import Mathlib

/-!
Shallow embedding of the tg-analys bot (src/bot.py, src/database.py).

The persistent store (database.py) is modelled as a record of row lists, one
per table; each Database method becomes a pure function on that record,
translated from its SQL statement.  Every bot handler in bot.py performs all
of its database reads before its first database write, so each handler is
modelled as a pure function from the initial database state (plus the event
and the outcomes of the external calls) to a trace of database write
operations together with the observable effects: messages sent or edited,
whether the voice payload was downloaded, whether the transcription or
analysis service was invoked, whether the temporary voice file still exists
when the handler returns, and the resulting FSM state.  The final database
state is obtained by replaying the write trace with `applyOps`.

External calls (whisper_client.transcribe_audio, ai_client.analyze_messages /
custom_analysis) are oracles: a `CallResult` parameter gives the text they
return on success or marks the exception they raise on failure.  The model
lets the transcription call be the failure point of the voice handlers' try
block; any exception there reaches the same except branch in the source.
-/

namespace TgAnalys

/-- Row of the `users` table (database.py, create_tables). -/
structure UserRow where
  user_id : Int
  username : Option String
  first_name : Option String
  last_name : Option String
  is_authorized : Bool
deriving DecidableEq

/-- Row of the `chats` table. -/
structure ChatRow where
  chat_id : Int
  chat_type : String
  title : Option String
  transcription_enabled : Bool
deriving DecidableEq

/-- Row of the `messages` table (message_id / created_at omitted: the code
never reads them back; `message_date` is the POSIX timestamp as an integer). -/
structure MessageRow where
  chat_id : Int
  user_id : Int
  message_text : Option String
  message_date : Int
  is_voice : Bool
  transcription : Option String
deriving DecidableEq

/-- Row of the `business_connections` table. -/
structure BizConnRow where
  connection_id : String
  user_id : Int
  user_chat_id : Int
  is_active : Bool
deriving DecidableEq

/-- Row of the `analysis_results` table (id / created_at omitted). -/
structure AnalysisRow where
  chat_id : Int
  user_id : Int
  analysis_type : String
  result_text : String
deriving DecidableEq

/-- The whole persistent store, one list per table, rows in insertion order. -/
structure DBState where
  users : List UserRow
  chats : List ChatRow
  messages : List MessageRow
  business_connections : List BizConnRow
  analysis_results : List AnalysisRow
deriving DecidableEq

def emptyDB : DBState :=
  { users := [], chats := [], messages := [], business_connections := [],
    analysis_results := [] }

/-- `INSERT ... ON CONFLICT (user_id) DO UPDATE`: the primary key makes the
matching row unique, so the upsert updates the first matching row or appends.
`is_authorized` is set TRUE in both arms (Database.add_user). -/
def upsertUser (l : List UserRow) (uid : Int) (un fn ln : Option String) :
    List UserRow :=
  match l with
  | [] => [⟨uid, un, fn, ln, true⟩]
  | u :: us =>
      if u.user_id == uid then ⟨uid, un, fn, ln, true⟩ :: us
      else u :: upsertUser us uid un fn ln

def add_user (s : DBState) (uid : Int) (un fn ln : Option String) : DBState :=
  { s with users := upsertUser s.users uid un fn ln }

/-- `SELECT * FROM users WHERE user_id = $1` via fetchrow (first row). -/
def get_user (s : DBState) (uid : Int) : Option UserRow :=
  s.users.find? (fun u => u.user_id == uid)

/-- Database.is_user_authorized: `user and user.get("is_authorized", False)`. -/
def is_user_authorized (s : DBState) (uid : Int) : Bool :=
  match get_user s uid with
  | none => false
  | some u => u.is_authorized

/-- `INSERT ... ON CONFLICT (chat_id) DO UPDATE SET chat_type, title`:
on conflict the stored `transcription_enabled` is kept; a fresh row gets the
column default TRUE (Database.add_chat). -/
def upsertChat (l : List ChatRow) (cid : Int) (ct : String)
    (title : Option String) : List ChatRow :=
  match l with
  | [] => [⟨cid, ct, title, true⟩]
  | c :: cs =>
      if c.chat_id == cid then ⟨cid, ct, title, c.transcription_enabled⟩ :: cs
      else c :: upsertChat cs cid ct title

def add_chat (s : DBState) (cid : Int) (ct : String) (title : Option String) :
    DBState :=
  { s with chats := upsertChat s.chats cid ct title }

def get_chat (s : DBState) (cid : Int) : Option ChatRow :=
  s.chats.find? (fun c => c.chat_id == cid)

/-- `UPDATE chats SET transcription_enabled = $1 WHERE chat_id = $2`:
a plain UPDATE, it inserts nothing when no row matches
(Database.set_transcription_enabled). -/
def set_transcription_enabled (s : DBState) (cid : Int) (enabled : Bool) :
    DBState :=
  { s with chats := s.chats.map (fun c =>
      if c.chat_id == cid then
        { chat_id := c.chat_id, chat_type := c.chat_type, title := c.title,
          transcription_enabled := enabled }
      else c) }

/-- Database.is_transcription_enabled: TRUE when the chat is unknown. -/
def is_transcription_enabled (s : DBState) (cid : Int) : Bool :=
  match get_chat s cid with
  | none => true
  | some c => c.transcription_enabled

/-- Database.add_message: a plain INSERT, append-only. -/
def add_message (s : DBState) (cid uid : Int) (text : Option String)
    (date : Int) (is_voice : Bool) (transcription : Option String) : DBState :=
  { s with messages :=
      s.messages ++ [⟨cid, uid, text, date, is_voice, transcription⟩] }

/-- Insert into a list kept sorted by descending `message_date`. -/
def insertByDateDesc (m : MessageRow) : List MessageRow → List MessageRow
  | [] => [m]
  | x :: xs =>
      if x.message_date ≤ m.message_date then m :: x :: xs
      else x :: insertByDateDesc m xs

def sortByDateDesc : List MessageRow → List MessageRow
  | [] => []
  | x :: xs => insertByDateDesc x (sortByDateDesc xs)

/-- `SELECT * FROM messages WHERE chat_id = $1 ORDER BY message_date DESC
LIMIT $2` (Database.get_chat_messages; ties are left in insertion order). -/
def get_chat_messages (s : DBState) (cid : Int) (limit : Nat) :
    List MessageRow :=
  (sortByDateDesc (s.messages.filter (fun m => m.chat_id == cid))).take limit

/-- Database.add_analysis_result: a plain INSERT, append-only. -/
def add_analysis_result (s : DBState) (cid uid : Int) (atype rtext : String) :
    DBState :=
  { s with analysis_results := s.analysis_results ++ [⟨cid, uid, atype, rtext⟩] }

/-- `INSERT ... ON CONFLICT (connection_id) DO UPDATE ... is_active = TRUE`
(Database.add_business_connection). -/
def upsertBizConn (l : List BizConnRow) (cid : String) (uid uchat : Int) :
    List BizConnRow :=
  match l with
  | [] => [⟨cid, uid, uchat, true⟩]
  | b :: bs =>
      if b.connection_id == cid then ⟨cid, uid, uchat, true⟩ :: bs
      else b :: upsertBizConn bs cid uid uchat

def add_business_connection (s : DBState) (cid : String) (uid uchat : Int) :
    DBState :=
  { s with business_connections := upsertBizConn s.business_connections cid uid uchat }

/-- `UPDATE business_connections SET is_active = FALSE WHERE connection_id`:
a soft delete, no row is removed (Database.remove_business_connection). -/
def remove_business_connection (s : DBState) (cid : String) : DBState :=
  { s with business_connections := s.business_connections.map (fun b =>
      if b.connection_id == cid then
        { connection_id := b.connection_id, user_id := b.user_id,
          user_chat_id := b.user_chat_id, is_active := false }
      else b) }

/-- `SELECT * FROM business_connections WHERE connection_id = $1 AND
is_active = TRUE` (Database.get_business_connection). -/
def get_business_connection (s : DBState) (cid : String) : Option BizConnRow :=
  s.business_connections.find? (fun b => b.connection_id == cid && b.is_active)

/-! ### Write traces -/

/-- One database write, as issued by a handler; reads are evaluated against
the state the handler started from (in every handler of bot.py all reads
precede all writes). -/
inductive DbOp where
  | addUser (uid : Int) (un fn ln : Option String)
  | addChat (cid : Int) (ct : String) (title : Option String)
  | addMessage (cid uid : Int) (text : Option String) (date : Int)
      (is_voice : Bool) (transcription : Option String)
  | setTranscription (cid : Int) (enabled : Bool)
  | addAnalysisResult (cid uid : Int) (atype rtext : String)
  | addBusinessConnection (cid : String) (uid uchat : Int)
  | removeBusinessConnection (cid : String)
deriving DecidableEq

def applyOp (s : DBState) : DbOp → DBState
  | DbOp.addUser uid un fn ln => add_user s uid un fn ln
  | DbOp.addChat cid ct title => add_chat s cid ct title
  | DbOp.addMessage cid uid text date v tr => add_message s cid uid text date v tr
  | DbOp.setTranscription cid e => set_transcription_enabled s cid e
  | DbOp.addAnalysisResult cid uid a r => add_analysis_result s cid uid a r
  | DbOp.addBusinessConnection cid uid uc => add_business_connection s cid uid uc
  | DbOp.removeBusinessConnection cid => remove_business_connection s cid

def applyOps (s : DBState) (ops : List DbOp) : DBState := ops.foldl applyOp s

/-! ### Observable effects -/

/-- A user-visible transport call. -/
inductive Out where
  | sent (text : String)
  | edited (text : String)
  | toast (text : String)
  | alert (text : String)
  | ack
  | bizSent (connection_id : String) (reply_to : Int) (text : String)
deriving DecidableEq

/-- What one handler run did, besides its database writes. -/
structure Effects where
  ops : List DbOp
  outputs : List Out
  downloaded : Bool
  transcribed : Bool
  tempFileLeft : Bool
  analysisInvoked : Bool
deriving DecidableEq

def noEffects : Effects :=
  { ops := [], outputs := [], downloaded := false, transcribed := false,
    tempFileLeft := false, analysisInvoked := false }

/-- Outcome of an external call that the source wraps in try/except:
`ok` carries the returned text, `err` the exception's string. -/
inductive CallResult where
  | ok (text : String)
  | err (msg : String)
deriving DecidableEq

/-- Python truthiness of an optional string (`None` and `""` are falsy). -/
def pyTruthy : Option String → Bool
  | none => false
  | some s => !(s == "")

/-- Python `a or b` on optional strings. -/
def pyOr (a b : Option String) : Option String := if pyTruthy a then a else b

/-- Python `x if x is not None else "None"` rendering inside an f-string. -/
def optStr : Option String → String
  | none => "None"
  | some s => s

/-- The per-user aiogram FSM: `AnalysisStates.waiting_for_custom_query`
together with the `chat_id` stored by `state.update_data`. -/
inductive FsmState where
  | idle
  | waitingCustomQuery (target_chat_id : Int)
deriving DecidableEq

/-! ### Events -/

structure StartEvent where
  from_user_id : Int
  username : Option String
  first_name : Option String
  last_name : Option String
deriving DecidableEq

structure TextEvent where
  from_user_id : Int
  chat_id : Int
  chat_type : String
  chat_title : Option String
  chat_first_name : Option String
  date : Int
  text : String
deriving DecidableEq

structure VoiceEvent where
  from_user_id : Int
  chat_id : Int
  chat_type : String
  chat_title : Option String
  chat_first_name : Option String
  date : Int
  voice_file_id : String
deriving DecidableEq

structure BizConnEvent where
  id : String
  user_id : Int
  user_chat_id : Int
  is_enabled : Bool
deriving DecidableEq

structure BizVoiceEvent where
  business_connection_id : Option String
  from_user : Option Int
  chat_id : Int
  chat_title : Option String
  chat_first_name : Option String
  date : Int
  message_id : Int
  voice_file_id : String
deriving DecidableEq

structure BizTextEvent where
  business_connection_id : Option String
  from_user : Option Int
  chat_id : Int
  chat_title : Option String
  chat_first_name : Option String
  date : Int
  message_id : Int
  text : String
deriving DecidableEq

/-- `message.from_user.id if message.from_user else 0` (bot.py business
handlers). -/
def defaultSender : Option Int → Int
  | none => 0
  | some u => u

/-! ### Handlers (bot.py) -/

/-- cmd_start: stores the user (authorizing unconditionally) and sends the
welcome text. -/
def cmd_start (ev : StartEvent) : Effects :=
  { ops := [DbOp.addUser ev.from_user_id ev.username ev.first_name ev.last_name],
    outputs := [Out.sent ("👋 Привет, " ++ optStr ev.first_name ++ "!\n\n" ++
      "Я бот для анализа твоих переписок в Telegram.")],
    downloaded := false, transcribed := false, tempFileLeft := false,
    analysisInvoked := false }

/-- handle_voice (bot.py lines 125-184).  The temporary file
`/tmp/voice_<file_id>.ogg` is created by the download; `tempFileLeft` records
whether it still exists when the handler returns: the source removes it only
between a successful `transcribe_audio` and the message insert, so the except
branch returns with the file still on disk. -/
def handle_voice (s : DBState) (ev : VoiceEvent) (tr : CallResult) : Effects :=
  if !(is_user_authorized s ev.from_user_id) then
    { ops := [],
      outputs := [Out.sent "❌ Вы не авторизованы. Используйте /start"],
      downloaded := false, transcribed := false, tempFileLeft := false,
      analysisInvoked := false }
  else if !(is_transcription_enabled s ev.chat_id) then
    { ops := [DbOp.addMessage ev.chat_id ev.from_user_id none ev.date true none],
      outputs := [], downloaded := false, transcribed := false,
      tempFileLeft := false, analysisInvoked := false }
  else
    let chatOp := DbOp.addChat ev.chat_id ev.chat_type
      (pyOr ev.chat_title ev.chat_first_name)
    match tr with
    | CallResult.ok t =>
        { ops := [chatOp,
            DbOp.addMessage ev.chat_id ev.from_user_id none ev.date true (some t)],
          outputs := [Out.sent "🎤 Транскрибирую голосовое сообщение...",
            Out.edited ("📝 Транскрибация:\n\n" ++ t)],
          downloaded := true, transcribed := true, tempFileLeft := false,
          analysisInvoked := false }
    | CallResult.err e =>
        { ops := [chatOp],
          outputs := [Out.sent "🎤 Транскрибирую голосовое сообщение...",
            Out.sent ("❌ Ошибка при обработке голосового сообщения: " ++ e)],
          downloaded := true, transcribed := true, tempFileLeft := true,
          analysisInvoked := false }

/-- handle_text (bot.py lines 189-246): the pending-custom-query branch runs
before the authorization check; on analysis failure the exception escapes
before `state.clear()`, so the pending state survives. -/
def handle_text (s : DBState) (fsm : FsmState) (ev : TextEvent)
    (ar : CallResult) : Effects × FsmState :=
  match fsm with
  | FsmState.waitingCustomQuery target =>
      if (get_chat_messages s target 300).isEmpty then
        ({ ops := [], outputs := [Out.sent "❌ Нет сообщений для анализа"],
           downloaded := false, transcribed := false, tempFileLeft := false,
           analysisInvoked := false }, FsmState.idle)
      else
        match ar with
        | CallResult.ok r =>
            ({ ops := [DbOp.addAnalysisResult target ev.from_user_id "custom" r],
               outputs := [Out.sent "🤔 Анализирую переписку...",
                 Out.edited ("💡 Результат анализа:\n\n" ++ r),
                 Out.sent "Выберите действие:"],
               downloaded := false, transcribed := false, tempFileLeft := false,
               analysisInvoked := true }, FsmState.idle)
        | CallResult.err _ =>
            ({ ops := [], outputs := [Out.sent "🤔 Анализирую переписку..."],
               downloaded := false, transcribed := false, tempFileLeft := false,
               analysisInvoked := true }, FsmState.waitingCustomQuery target)
  | FsmState.idle =>
      if !(is_user_authorized s ev.from_user_id) then
        (noEffects, FsmState.idle)
      else
        ({ ops := [DbOp.addChat ev.chat_id ev.chat_type
              (pyOr ev.chat_title ev.chat_first_name),
            DbOp.addMessage ev.chat_id ev.from_user_id (some ev.text) ev.date
              false none],
           outputs := [], downloaded := false, transcribed := false,
           tempFileLeft := false, analysisInvoked := false }, FsmState.idle)

/-- Title table of callback_analyze (bot.py lines 404-410). -/
def analysisTitle (t : String) : String :=
  if t == "summary" then "📊 Резюме переписки"
  else if t == "insights" then "💡 Ключевые инсайты"
  else if t == "topics" then "📝 Основные темы"
  else if t == "sentiment" then "😊 Анализ тональности"
  else "📊 Результат анализа"

/-- callback_analyze (bot.py lines 365-415), after the `analyze_<type>_<id>`
tag has been split; it performs no authorization check.  On analysis failure
the exception escapes after the status edit, before the insert. -/
def callback_analyze (s : DBState) (fsm : FsmState) (analysis_type : String)
    (chat_id from_user_id : Int) (ar : CallResult) : Effects × FsmState :=
  if analysis_type == "custom" then
    ({ ops := [], outputs := [Out.sent "❓ Задайте свой вопрос о переписке:", Out.ack],
       downloaded := false, transcribed := false, tempFileLeft := false,
       analysisInvoked := false }, FsmState.waitingCustomQuery chat_id)
  else if (get_chat_messages s chat_id 300).isEmpty then
    ({ ops := [], outputs := [Out.alert "❌ Нет сообщений для анализа"],
       downloaded := false, transcribed := false, tempFileLeft := false,
       analysisInvoked := false }, fsm)
  else
    match ar with
    | CallResult.ok r =>
        ({ ops := [DbOp.addAnalysisResult chat_id from_user_id analysis_type r],
           outputs := [Out.edited "🤔 Анализирую переписку...",
             Out.edited (analysisTitle analysis_type ++ ":\n\n" ++ r),
             Out.sent "Выберите действие:", Out.ack],
           downloaded := false, transcribed := false, tempFileLeft := false,
           analysisInvoked := true }, fsm)
    | CallResult.err _ =>
        ({ ops := [], outputs := [Out.edited "🤔 Анализирую переписку..."],
           downloaded := false, transcribed := false, tempFileLeft := false,
           analysisInvoked := true }, fsm)

/-- handle_business_connection (bot.py lines 420-436): enabled upserts the
row active, disabled soft-deletes it. -/
def handle_business_connection (ev : BizConnEvent) : List DbOp :=
  if ev.is_enabled then
    [DbOp.addBusinessConnection ev.id ev.user_id ev.user_chat_id]
  else
    [DbOp.removeBusinessConnection ev.id]

/-- handle_business_voice (bot.py lines 439-515).  Guards: a falsy
(`None`/empty) connection id, then an inactive or unknown connection, each
drop the event with no effect. -/
def handle_business_voice (s : DBState) (ev : BizVoiceEvent)
    (tr : CallResult) : Effects :=
  match ev.business_connection_id with
  | none => noEffects
  | some bcid =>
      if bcid == "" then noEffects
      else if (get_business_connection s bcid).isNone then noEffects
      else
        let uid := defaultSender ev.from_user
        if !(is_transcription_enabled s ev.chat_id) then
          { ops := [DbOp.addMessage ev.chat_id uid none ev.date true none],
            outputs := [], downloaded := false, transcribed := false,
            tempFileLeft := false, analysisInvoked := false }
        else
          let chatOp := DbOp.addChat ev.chat_id "business"
            (pyOr (pyOr ev.chat_title ev.chat_first_name) (some "Business Chat"))
          match tr with
          | CallResult.ok t =>
              { ops := [chatOp,
                  DbOp.addMessage ev.chat_id uid none ev.date true (some t)],
                outputs := [Out.bizSent bcid ev.message_id
                  ("📝 Транскрибация:\n\n" ++ t)],
                downloaded := true, transcribed := true, tempFileLeft := false,
                analysisInvoked := false }
          | CallResult.err e =>
              { ops := [chatOp],
                outputs := [Out.bizSent bcid ev.message_id
                  ("❌ Ошибка при обработке голосового сообщения: " ++ e)],
                downloaded := true, transcribed := true, tempFileLeft := true,
                analysisInvoked := false }

/-- handle_business_text (bot.py lines 518-543). -/
def handle_business_text (s : DBState) (ev : BizTextEvent) : Effects :=
  match ev.business_connection_id with
  | none => noEffects
  | some bcid =>
      if bcid == "" then noEffects
      else if (get_business_connection s bcid).isNone then noEffects
      else
        { ops := [DbOp.addChat ev.chat_id "business"
              (pyOr (pyOr ev.chat_title ev.chat_first_name) (some "Business Chat")),
            DbOp.addMessage ev.chat_id (defaultSender ev.from_user)
              (some ev.text) ev.date false none],
          outputs := [], downloaded := false, transcribed := false,
          tempFileLeft := false, analysisInvoked := false }

/-! ### Predicates over write traces -/

/-- Does every `addMessage` in the trace have an `addChat` for the same chat
strictly earlier in the same trace?  (The literal reading of the
upsert-before-insert claim.) -/
def chatUpsertPrecedes (seen : List Int) : List DbOp → Bool
  | [] => true
  | DbOp.addChat cid _ _ :: rest => chatUpsertPrecedes (cid :: seen) rest
  | DbOp.addMessage cid _ _ _ _ _ :: rest =>
      seen.contains cid && chatUpsertPrecedes seen rest
  | _ :: rest => chatUpsertPrecedes seen rest

def upsertBeforeInsert (ops : List DbOp) : Bool := chatUpsertPrecedes [] ops

/-- Replay the trace and check, at each `addMessage`, that the chat row
already exists in the database at that moment. -/
def chatExistsAtInserts (s : DBState) : List DbOp → Bool
  | [] => true
  | op :: rest =>
      match op with
      | DbOp.addMessage cid _ _ _ _ _ =>
          (get_chat s cid).isSome && chatExistsAtInserts (applyOp s op) rest
      | _ => chatExistsAtInserts (applyOp s op) rest

/-- The sender ids of the `addMessage` writes in a trace. -/
def msgSenders : List DbOp → List Int
  | [] => []
  | DbOp.addMessage _ uid _ _ _ _ :: rest => uid :: msgSenders rest
  | _ :: rest => msgSenders rest

/-! ### Concrete fixtures used by counterexamples and witnesses -/

/-- A store holding only the authorized user 1. -/
def dbAuth1 : DBState :=
  { users := [⟨1, none, none, none, true⟩], chats := [], messages := [],
    business_connections := [], analysis_results := [] }

/-- A store with the authorized user 1 and chat 5 with transcription off. -/
def dbChat5Off : DBState :=
  { users := [⟨1, none, none, none, true⟩],
    chats := [⟨5, "private", none, false⟩], messages := [],
    business_connections := [], analysis_results := [] }

/-- A store where user 42 exists with `is_authorized = FALSE` and chat 5 has
transcription disabled. -/
def dbUnauth42 : DBState :=
  { users := [⟨42, none, none, none, false⟩],
    chats := [⟨5, "private", none, false⟩], messages := [],
    business_connections := [], analysis_results := [] }

/-- A store with an active business connection \"biz1\" and one stored
message in chat 9. -/
def dbBiz : DBState :=
  { users := [⟨42, none, none, none, false⟩], chats := [],
    messages := [⟨9, 3, some "hi", 50, false, none⟩],
    business_connections := [⟨"biz1", 7, 8, true⟩], analysis_results := [] }

def voiceEv1 : VoiceEvent := ⟨1, 5, "private", none, some "Alice", 100, "f1"⟩

def voiceEv42 : VoiceEvent := ⟨42, 5, "private", none, some "Bob", 100, "f2"⟩

def textEv42 : TextEvent := ⟨42, 5, "private", none, some "Bob", 100, "hello"⟩

def bizVoiceEv : BizVoiceEvent :=
  ⟨some "biz1", none, 9, some "Shop", none, 60, 77, "f3"⟩

/-- A store with an authorized user, transcription disabled for chats 5 and
9, and an active business connection \"biz1\". -/
def dbBizOff : DBState :=
  { users := [⟨1, none, none, none, true⟩],
    chats := [⟨5, "private", none, false⟩, ⟨9, "business", none, false⟩],
    messages := [], business_connections := [⟨"biz1", 7, 8, true⟩],
    analysis_results := [] }

def bizTextEv : BizTextEvent :=
  ⟨some "biz1", none, 9, some "Shop", none, 61, 78, "order?"⟩

/-! ### Helper lemmas about the store operations -/

theorem find?_upsertChat_self (l : List ChatRow) (cid : Int) (ct : String)
    (t : Option String) :
    ((upsertChat l cid ct t).find? (fun c => c.chat_id == cid)).isSome = true := by
  induction l with
  | nil => simp [upsertChat, List.find?]
  | cons c cs ih =>
      cases h : c.chat_id == cid with
      | true => simp [upsertChat, h, List.find?]
      | false => simp [upsertChat, h, List.find?, ih]

theorem get_chat_add_chat_self (s : DBState) (cid : Int) (ct : String)
    (t : Option String) :
    (get_chat (add_chat s cid ct t) cid).isSome = true :=
  find?_upsertChat_self s.chats cid ct t

theorem get_chat_isSome_of_transcription_disabled (s : DBState) (cid : Int)
    (h : is_transcription_enabled s cid = false) :
    (get_chat s cid).isSome = true := by
  unfold is_transcription_enabled at h
  cases hc : get_chat s cid with
  | none => rw [hc] at h; exact absurd h (by simp)
  | some c => simp

theorem find?_upsertUser_self (l : List UserRow) (uid : Int)
    (un fn ln : Option String) :
    (upsertUser l uid un fn ln).find? (fun u => u.user_id == uid)
      = some ⟨uid, un, fn, ln, true⟩ := by
  induction l with
  | nil => simp [upsertUser, List.find?]
  | cons u us ih =>
      cases h : u.user_id == uid with
      | true => simp [upsertUser, h, List.find?]
      | false => simp [upsertUser, h, List.find?, ih]

theorem is_user_authorized_add_user (s : DBState) (uid : Int)
    (un fn ln : Option String) :
    is_user_authorized (add_user s uid un fn ln) uid = true := by
  unfold is_user_authorized get_user add_user
  simp [find?_upsertUser_self]

theorem find?_map_setFlag (l : List ChatRow) (cid : Int) (b : Bool) :
    (l.map (fun c => if c.chat_id == cid then
        ChatRow.mk c.chat_id c.chat_type c.title b else c)).find?
      (fun c => c.chat_id == cid)
    = (l.find? (fun c => c.chat_id == cid)).map
        (fun c => ChatRow.mk c.chat_id c.chat_type c.title b) := by
  rw [List.find?_map]
  have hp : ((fun c : ChatRow => c.chat_id == cid) ∘
      (fun c => if c.chat_id == cid then
        ChatRow.mk c.chat_id c.chat_type c.title b else c))
      = (fun c : ChatRow => c.chat_id == cid) := by
    funext c
    cases h : c.chat_id == cid with
    | true => simp [Function.comp, h]
    | false => simp [Function.comp, h]
  rw [hp]
  cases hf : l.find? (fun c => c.chat_id == cid) with
  | none => rfl
  | some c =>
      have hc0 : (fun c : ChatRow => c.chat_id == cid) c = true :=
        List.find?_some (p := fun c : ChatRow => c.chat_id == cid) hf
      have hc : c.chat_id = cid := eq_of_beq hc0
      simp [hc]

theorem map_setFlag_of_find?_none (cid : Int) (b : Bool) :
    ∀ l : List ChatRow, l.find? (fun c => c.chat_id == cid) = none →
    l.map (fun c => if c.chat_id == cid then
        ChatRow.mk c.chat_id c.chat_type c.title b else c) = l := by
  intro l
  induction l with
  | nil => intro _; rfl
  | cons c cs ih =>
      intro h
      have hc : ¬ ((fun c : ChatRow => c.chat_id == cid) c = true) :=
        List.find?_eq_none.mp h c (List.mem_cons_self c cs)
      have hcs : cs.find? (fun c => c.chat_id == cid) = none := by
        rw [List.find?_eq_none]
        intro x hx
        exact List.find?_eq_none.mp h x (List.mem_cons_of_mem _ hx)
      simp only [List.map_cons, ih hcs]
      rw [if_neg hc]

theorem get_chat_set_transcription (s : DBState) (cid : Int) (b : Bool) :
    get_chat (set_transcription_enabled s cid b) cid
      = (get_chat s cid).map (fun c => ChatRow.mk c.chat_id c.chat_type c.title b) := by
  unfold get_chat set_transcription_enabled
  exact find?_map_setFlag s.chats cid b

theorem find?_upsertBizConn_self (l : List BizConnRow) (cid : String)
    (uid uc : Int) :
    (upsertBizConn l cid uid uc).find?
      (fun b => b.connection_id == cid && b.is_active)
      = some ⟨cid, uid, uc, true⟩ := by
  induction l with
  | nil => simp [upsertBizConn, List.find?]
  | cons b bs ih =>
      cases h : b.connection_id == cid with
      | true => simp [upsertBizConn, h, List.find?]
      | false => simp [upsertBizConn, h, List.find?, ih]

theorem upsertBizConn_preserves_ids (l : List BizConnRow) (cid : String)
    (uid uc : Int) (r : BizConnRow) (hr : r ∈ l) :
    ∃ r' ∈ upsertBizConn l cid uid uc, r'.connection_id = r.connection_id := by
  induction l with
  | nil => cases hr
  | cons b bs ih =>
      cases h : b.connection_id == cid with
      | true =>
          rcases List.mem_cons.mp hr with rfl | hmem
          · refine ⟨⟨cid, uid, uc, true⟩, ?_, ?_⟩
            · simp [upsertBizConn, h]
            · exact (eq_of_beq h).symm
          · exact ⟨r, by simp [upsertBizConn, h, hmem], rfl⟩
      | false =>
          rcases List.mem_cons.mp hr with rfl | hmem
          · exact ⟨r, by simp [upsertBizConn, h], rfl⟩
          · rcases ih hmem with ⟨r', hr', hid⟩
            exact ⟨r', by simp [upsertBizConn, h]; right; exact hr', hid⟩

theorem removeMap_preserves_ids (l : List BizConnRow) (cid : String)
    (r : BizConnRow) (hr : r ∈ l) :
    ∃ r' ∈ l.map (fun b => if b.connection_id == cid then
        BizConnRow.mk b.connection_id b.user_id b.user_chat_id false else b),
      r'.connection_id = r.connection_id := by
  refine ⟨_, List.mem_map_of_mem _ hr, ?_⟩
  cases h : r.connection_id == cid with
  | true => simp [h]
  | false => simp [h]

theorem removeMap_inactive (l : List BizConnRow) (cid : String) :
    ∀ q ∈ l.map (fun b => if b.connection_id == cid then
        BizConnRow.mk b.connection_id b.user_id b.user_chat_id false else b),
      q.connection_id = cid → q.is_active = false := by
  intro q hq hid
  rcases List.mem_map.mp hq with ⟨b, _, rfl⟩
  cases h : b.connection_id == cid with
  | true => simp [h]
  | false =>
      exfalso
      cases hb : b.connection_id == cid with
      | true => rw [hb] at h; cases h
      | false =>
          rw [h] at hid
          simp at hid
          exact absurd (beq_iff_eq.mpr hid) (by simp [hb])

theorem find?_removeMap_none (l : List BizConnRow) (cid : String) :
    (l.map (fun b => if b.connection_id == cid then
        BizConnRow.mk b.connection_id b.user_id b.user_chat_id false else b)).find?
      (fun b => b.connection_id == cid && b.is_active) = none := by
  rw [List.find?_eq_none]
  intro x hx
  rcases List.mem_map.mp hx with ⟨b, _, rfl⟩
  cases h : b.connection_id == cid with
  | true =>
      have h' : b.connection_id = cid := eq_of_beq h
      simp [h']
  | false =>
      have h' : b.connection_id ≠ cid := ne_of_beq_false h
      simp [h']

theorem get_business_connection_remove_self (s : DBState) (cid : String) :
    get_business_connection (remove_business_connection s cid) cid = none := by
  unfold get_business_connection remove_business_connection
  exact find?_removeMap_none s.business_connections cid

/-! ### Claim theorems -/

/-- Claim C1 (code_bug): the spec mandates that the temporary audio file is
released on every exit path of the voice handler, but the source removes it
only after a successful transcription: when `transcribe_audio` raises, the
except branch returns with `/tmp/voice_<id>.ogg` still on disk.  Evaluated
at the failing input (authorized user 1, transcription-enabled chat 5, a
transcription failure): the payload was downloaded, yet the temporary file
still exists at return; on the success path at the same event it is
deleted. -/
theorem c1_temp_file_not_released_on_failure :
    (handle_voice dbAuth1 voiceEv1 (CallResult.err "whisper failed")).downloaded = true ∧
    (handle_voice dbAuth1 voiceEv1 (CallResult.err "whisper failed")).tempFileLeft = true ∧
    (handle_voice dbAuth1 voiceEv1 (CallResult.ok "привет")).tempFileLeft = false := by
  decide

/-- Claim C4, counterexample: `set_transcription_enabled` is a plain UPDATE,
not an upsert.  On a store with no Chat row for id 1, setting the flag to
`false` and immediately reading it back returns `true`, not the just-set
value, and no row was created. -/
theorem c4_counterexample_set_is_not_upsert :
    is_transcription_enabled (set_transcription_enabled emptyDB 1 false) 1 = true ∧
    (set_transcription_enabled emptyDB 1 false).chats = [] := by
  decide

/-- Claim C4, amended: for every chat id that has a stored Chat row,
`set_transcription_enabled` followed immediately by
`is_transcription_enabled` returns the just-set value; for a chat id with no
stored row the setter is a no-op (an UPDATE matching nothing, not an upsert)
and the getter returns `true`. -/
theorem c4_set_then_get (s : DBState) (cid : Int) (b : Bool) :
    ((get_chat s cid).isSome = true →
      is_transcription_enabled (set_transcription_enabled s cid b) cid = b) ∧
    (get_chat s cid = none →
      set_transcription_enabled s cid b = s ∧
      is_transcription_enabled s cid = true) := by
  constructor
  · intro h
    unfold is_transcription_enabled
    rw [get_chat_set_transcription]
    cases hc : get_chat s cid with
    | none => rw [hc] at h; exact absurd h (by simp)
    | some c => rfl
  · intro h
    refine ⟨?_, ?_⟩
    · unfold set_transcription_enabled
      rw [map_setFlag_of_find?_none cid b s.chats h]
    · unfold is_transcription_enabled
      rw [h]

/-- Claim C4, witness: on a store holding chat 5, setting the flag to `true`
and reading it back returns `true`. -/
theorem c4_witness :
    is_transcription_enabled (set_transcription_enabled dbChat5Off 5 true) 5 = true :=
  (c4_set_then_get dbChat5Off 5 true).1 (by decide)

/-- Claim C7: a business-connection lifecycle event with `is_enabled = false`
sets the existing row's `is_active` to false without deleting it, an
`is_enabled = true` event creates or reactivates the row with
`is_active = true`, and no lifecycle event removes a row: every
`connection_id` present before the event is still present after it. -/
theorem c7_business_connection_soft_delete (s : DBState) (ev : BizConnEvent)
    (r : BizConnRow) (hr : r ∈ s.business_connections) :
    (∃ r' ∈ (applyOps s (handle_business_connection ev)).business_connections,
        r'.connection_id = r.connection_id) ∧
    (ev.is_enabled = false →
      ∀ q ∈ (applyOps s (handle_business_connection ev)).business_connections,
        q.connection_id = ev.id → q.is_active = false) ∧
    (ev.is_enabled = true →
      get_business_connection (applyOps s (handle_business_connection ev)) ev.id
        = some ⟨ev.id, ev.user_id, ev.user_chat_id, true⟩) := by
  cases he : ev.is_enabled with
  | true =>
      have hh : applyOps s (handle_business_connection ev)
          = add_business_connection s ev.id ev.user_id ev.user_chat_id := by
        unfold handle_business_connection
        rw [he]
        rfl
      rw [hh]
      refine ⟨?_, ?_, ?_⟩
      · exact upsertBizConn_preserves_ids s.business_connections ev.id ev.user_id
          ev.user_chat_id r hr
      · intro hfalse
        exact absurd hfalse (by simp)
      · intro _
        exact find?_upsertBizConn_self s.business_connections ev.id ev.user_id
          ev.user_chat_id
  | false =>
      have hh : applyOps s (handle_business_connection ev)
          = remove_business_connection s ev.id := by
        unfold handle_business_connection
        rw [he]
        rfl
      rw [hh]
      refine ⟨?_, ?_, ?_⟩
      · exact removeMap_preserves_ids s.business_connections ev.id r hr
      · intro _
        exact removeMap_inactive s.business_connections ev.id
      · intro htrue
        exact absurd htrue (by simp)

/-- Claim C7, witness: disabling the previously active connection \"biz1\"
keeps its row and makes it inactive. -/
theorem c7_witness :
    (∃ r' ∈ (applyOps dbBiz (handle_business_connection ⟨"biz1", 7, 8, false⟩)).business_connections,
        r'.connection_id = "biz1") ∧
    (∀ q ∈ (applyOps dbBiz (handle_business_connection ⟨"biz1", 7, 8, false⟩)).business_connections,
        q.connection_id = "biz1" → q.is_active = false) := by
  have h := c7_business_connection_soft_delete dbBiz ⟨"biz1", 7, 8, false⟩
    ⟨"biz1", 7, 8, true⟩ (by decide)
  exact ⟨h.1, h.2.1 rfl⟩

/-- Claim C9: once a connection's `is_active` flag is false (after
`remove_business_connection`), the lookup used by the business handlers
returns nothing — it filters on `is_active = TRUE` — so every subsequent
business voice or text message carrying that connection id is dropped with
no database write, no transcription, no download and no reply. -/
theorem c9_inactive_connection_drops_messages (s : DBState) (cid : String)
    (vev : BizVoiceEvent) (tev : BizTextEvent) (tr : CallResult)
    (hv : vev.business_connection_id = some cid)
    (ht : tev.business_connection_id = some cid) :
    get_business_connection (remove_business_connection s cid) cid = none ∧
    handle_business_voice (remove_business_connection s cid) vev tr = noEffects ∧
    handle_business_text (remove_business_connection s cid) tev = noEffects := by
  have hnone := get_business_connection_remove_self s cid
  refine ⟨hnone, ?_, ?_⟩
  · simp [handle_business_voice, hv, hnone]
  · simp [handle_business_text, ht, hnone]

/-- Claim C9, witness: after soft-deleting \"biz1\", a business voice and a
business text message carrying \"biz1\" have no effect at all. -/
theorem c9_witness :
    handle_business_voice (remove_business_connection dbBiz "biz1") bizVoiceEv
      (CallResult.ok "hi") = noEffects ∧
    handle_business_text (remove_business_connection dbBiz "biz1") bizTextEv
      = noEffects := by
  have h := c9_inactive_connection_drops_messages dbBiz "biz1" bizVoiceEv
    bizTextEv (CallResult.ok "hi") rfl rfl
  exact ⟨h.2.1, h.2.2⟩

/-- Claim C10: for business text and voice messages, the persisted Message
row's sender is `message.from_user.id if message.from_user else 0`: every
message the business voice handler stores carries that sender, a business
text message (with an active connection) stores exactly one message with
that sender, and the fallback is 0 for an absent sender and the real id
otherwise. -/
theorem c10_business_sender_defaults (s : DBState) (vev : BizVoiceEvent)
    (tev : BizTextEvent) (tr : CallResult) (cid : String)
    (ht : tev.business_connection_id = some cid)
    (hne : (cid == "") = false)
    (hact : (get_business_connection s cid).isNone = false) :
    msgSenders (handle_business_text s tev).ops = [defaultSender tev.from_user] ∧
    (∀ u ∈ msgSenders (handle_business_voice s vev tr).ops,
        u = defaultSender vev.from_user) ∧
    defaultSender none = 0 ∧ (∀ u : Int, defaultSender (some u) = u) := by
  refine ⟨?_, ?_, rfl, fun u => rfl⟩
  · have hne' : cid ≠ "" := ne_of_beq_false hne
    have hact' : ¬ get_business_connection s cid = none := by
      rw [← Option.isNone_iff_eq_none]
      simp [hact]
    simp [handle_business_text, ht, hne', hact', msgSenders]
  · cases hbc : vev.business_connection_id with
    | none => simp [handle_business_voice, hbc, noEffects, msgSenders]
    | some b =>
        cases hb : b == "" with
        | true =>
            have hb' : b = "" := eq_of_beq hb
            simp [handle_business_voice, hbc, hb', noEffects, msgSenders]
        | false =>
            have hb' : b ≠ "" := ne_of_beq_false hb
            cases hn : (get_business_connection s b).isNone with
            | true =>
                have hn' : get_business_connection s b = none :=
                  Option.isNone_iff_eq_none.mp hn
                simp [handle_business_voice, hbc, hb', hn', noEffects, msgSenders]
            | false =>
                have hn' : ¬ get_business_connection s b = none := by
                  rw [← Option.isNone_iff_eq_none]
                  simp [hn]
                cases hte : is_transcription_enabled s vev.chat_id with
                | false =>
                    simp [handle_business_voice, hbc, hb', hn', hte, msgSenders]
                | true =>
                    cases tr with
                    | ok t =>
                        simp [handle_business_voice, hbc, hb', hn', hte, msgSenders]
                    | err e =>
                        simp [handle_business_voice, hbc, hb', hn', hte, msgSenders]

/-- Claim C10, witness: a business text message with no sender stores a
message with sender 0. -/
theorem c10_witness :
    msgSenders (handle_business_text dbBiz bizTextEv).ops = [0] := by
  have h := c10_business_sender_defaults dbBiz bizVoiceEv bizTextEv
    (CallResult.ok "x") "biz1" rfl (by decide) (by decide)
  exact h.1

/-- Claim C2, counterexample: for a voice event to a chat with transcription
disabled (authorized user 1, chat 5 stored with the flag off), the handler
stores a Message with no Chat upsert anywhere in its write trace, so the
upsert is not performed before the insert on this path. -/
theorem c2_counterexample_no_upsert_before_insert :
    upsertBeforeInsert (handle_voice dbChat5Off voiceEv1 (CallResult.ok "x")).ops
      = false ∧
    (handle_voice dbChat5Off voiceEv1 (CallResult.ok "x")).ops
      = [DbOp.addMessage 5 1 none 100 true none] := by
  decide

/-- Claim C2, amended: for every inbound text or voice event that results in
a Message being durably stored, a Chat row with that message's chat id
exists in the store at the moment of the insert — on most paths because the
handler upserts the Chat first, but on the transcription-disabled voice
paths no upsert is performed and the row merely pre-exists (the flag can
only read false for a stored chat). -/
theorem c2_chat_exists_at_message_insert (s : DBState) (vev : VoiceEvent)
    (tev : TextEvent) (bvev : BizVoiceEvent) (btev : BizTextEvent)
    (fsm : FsmState) (tr tr' ar : CallResult) :
    chatExistsAtInserts s (handle_voice s vev tr).ops = true ∧
    chatExistsAtInserts s (handle_text s fsm tev ar).1.ops = true ∧
    chatExistsAtInserts s (handle_business_voice s bvev tr').ops = true ∧
    chatExistsAtInserts s (handle_business_text s btev).ops = true := by
  refine ⟨?_, ?_, ?_, ?_⟩
  · cases ha : is_user_authorized s vev.from_user_id with
    | false => simp [handle_voice, ha, chatExistsAtInserts]
    | true =>
        cases hte : is_transcription_enabled s vev.chat_id with
        | false =>
            simp [handle_voice, ha, hte, chatExistsAtInserts,
              get_chat_isSome_of_transcription_disabled s vev.chat_id hte]
        | true =>
            cases tr with
            | ok t =>
                simp [handle_voice, ha, hte, chatExistsAtInserts, applyOp,
                  get_chat_add_chat_self]
            | err e =>
                simp [handle_voice, ha, hte, chatExistsAtInserts, applyOp]
  · cases fsm with
    | idle =>
        cases ha : is_user_authorized s tev.from_user_id with
        | false => simp [handle_text, ha, noEffects, chatExistsAtInserts]
        | true =>
            simp [handle_text, ha, chatExistsAtInserts, applyOp,
              get_chat_add_chat_self]
    | waitingCustomQuery target =>
        cases he : (get_chat_messages s target 300).isEmpty with
        | true => simp [handle_text, he, chatExistsAtInserts]
        | false =>
            cases ar with
            | ok r => simp [handle_text, he, chatExistsAtInserts, applyOp]
            | err e => simp [handle_text, he, chatExistsAtInserts]
  · cases hbc : bvev.business_connection_id with
    | none => simp [handle_business_voice, hbc, noEffects, chatExistsAtInserts]
    | some b =>
        cases hb : b == "" with
        | true =>
            have hb' : b = "" := eq_of_beq hb
            simp [handle_business_voice, hbc, hb', noEffects, chatExistsAtInserts]
        | false =>
            have hb' : b ≠ "" := ne_of_beq_false hb
            cases hn : (get_business_connection s b).isNone with
            | true =>
                have hn' : get_business_connection s b = none :=
                  Option.isNone_iff_eq_none.mp hn
                simp [handle_business_voice, hbc, hb', hn', noEffects,
                  chatExistsAtInserts]
            | false =>
                have hn' : ¬ get_business_connection s b = none := by
                  rw [← Option.isNone_iff_eq_none]
                  simp [hn]
                cases hte : is_transcription_enabled s bvev.chat_id with
                | false =>
                    simp [handle_business_voice, hbc, hb', hn', hte,
                      chatExistsAtInserts,
                      get_chat_isSome_of_transcription_disabled s bvev.chat_id hte]
                | true =>
                    cases tr' with
                    | ok t =>
                        simp [handle_business_voice, hbc, hb', hn', hte,
                          chatExistsAtInserts, applyOp, get_chat_add_chat_self]
                    | err e =>
                        simp [handle_business_voice, hbc, hb', hn', hte,
                          chatExistsAtInserts, applyOp]
  · cases hbc : btev.business_connection_id with
    | none => simp [handle_business_text, hbc, noEffects, chatExistsAtInserts]
    | some b =>
        cases hb : b == "" with
        | true =>
            have hb' : b = "" := eq_of_beq hb
            simp [handle_business_text, hbc, hb', noEffects, chatExistsAtInserts]
        | false =>
            have hb' : b ≠ "" := ne_of_beq_false hb
            cases hn : (get_business_connection s b).isNone with
            | true =>
                have hn' : get_business_connection s b = none :=
                  Option.isNone_iff_eq_none.mp hn
                simp [handle_business_text, hbc, hb', hn', noEffects,
                  chatExistsAtInserts]
            | false =>
                have hn' : ¬ get_business_connection s b = none := by
                  rw [← Option.isNone_iff_eq_none]
                  simp [hn]
                simp [handle_business_text, hbc, hb', hn', chatExistsAtInserts,
                  applyOp, get_chat_add_chat_self]

/-- Claim C3, counterexample: user 42 is stored with `is_authorized = FALSE`,
yet their voice event is answered with a visible not-authorized notice (not
silent), and a text event from them while a pending custom query exists also
produces output. -/
theorem c3_counterexample_unauthorized_not_silent :
    is_user_authorized dbUnauth42 42 = false ∧
    (handle_voice dbUnauth42 voiceEv42 (CallResult.ok "x")).outputs
      = [Out.sent "❌ Вы не авторизованы. Используйте /start"] ∧
    (handle_text dbUnauth42 (FsmState.waitingCustomQuery 9) textEv42
      (CallResult.ok "r")).1.outputs ≠ [] := by
  decide

/-- Claim C3, amended: for a user whose `is_authorized` flag is false,
a non-business text event (with no pending custom query) performs no
database write and produces no output; a non-business voice event performs
no database write but replies with a visible not-authorized notice instead
of being silent; and the `/start` command authorizes unconditionally.
(A pending custom query bypasses the check entirely — that is claim C8.) -/
theorem c3_unauthorized_dropped_amended (s : DBState) (tev : TextEvent)
    (vev : VoiceEvent) (sev : StartEvent) (tr ar : CallResult)
    (ht : is_user_authorized s tev.from_user_id = false)
    (hv : is_user_authorized s vev.from_user_id = false) :
    (handle_text s FsmState.idle tev ar).1.ops = [] ∧
    (handle_text s FsmState.idle tev ar).1.outputs = [] ∧
    (handle_text s FsmState.idle tev ar).2 = FsmState.idle ∧
    (handle_voice s vev tr).ops = [] ∧
    (handle_voice s vev tr).outputs
      = [Out.sent "❌ Вы не авторизованы. Используйте /start"] ∧
    is_user_authorized (applyOps s (cmd_start sev).ops) sev.from_user_id = true := by
  refine ⟨?_, ?_, ?_, ?_, ?_, ?_⟩ <;>
    simp [handle_text, handle_voice, ht, hv, noEffects, cmd_start, applyOps,
      applyOp, is_user_authorized_add_user]

/-- Claim C3, witness: at the concrete unauthorized user 42, the voice event
writes nothing and the idle text event is fully silent. -/
theorem c3_witness :
    (handle_voice dbUnauth42 voiceEv42 (CallResult.err "e")).ops = [] ∧
    (handle_text dbUnauth42 FsmState.idle textEv42 (CallResult.ok "r")).1.outputs
      = [] := by
  have h := c3_unauthorized_dropped_amended dbUnauth42 textEv42 voiceEv42
    ⟨42, none, some "Bob", none⟩ (CallResult.err "e") (CallResult.ok "r")
    (by decide) (by decide)
  exact ⟨h.2.2.2.1, h.2.1⟩

/-- Claim C5, counterexample: chat 5 has `transcription_enabled = FALSE` and
user 42 is unauthorized; their voice event to chat 5 appends no Message at
all (the authorization guard fires first), contradicting \"always appends a
Message\". -/
theorem c5_counterexample_no_message_for_unauthorized :
    is_transcription_enabled dbUnauth42 5 = false ∧
    (handle_voice dbUnauth42 voiceEv42 (CallResult.ok "x")).ops = [] ∧
    (applyOps dbUnauth42
      (handle_voice dbUnauth42 voiceEv42 (CallResult.ok "x")).ops).messages
      = dbUnauth42.messages := by
  decide

/-- Claim C5, amended: for a voice event to a chat with transcription
disabled, neither handler ever downloads the payload or invokes the
transcription service; and when the handler's entry guards pass (direct
path: sender authorized; business path: a present, active connection id)
the handler appends exactly one Message with `is_voice = true` and no
transcript. -/
theorem c5_disabled_short_circuit (s : DBState) (vev : VoiceEvent)
    (bev : BizVoiceEvent) (tr tr' : CallResult) (bcid : String)
    (hd : is_transcription_enabled s vev.chat_id = false)
    (hbd : is_transcription_enabled s bev.chat_id = false) :
    (handle_voice s vev tr).transcribed = false ∧
    (handle_voice s vev tr).downloaded = false ∧
    (handle_business_voice s bev tr').transcribed = false ∧
    (handle_business_voice s bev tr').downloaded = false ∧
    (is_user_authorized s vev.from_user_id = true →
      (handle_voice s vev tr).ops
        = [DbOp.addMessage vev.chat_id vev.from_user_id none vev.date true none]) ∧
    (bev.business_connection_id = some bcid → (bcid == "") = false →
      (get_business_connection s bcid).isNone = false →
      (handle_business_voice s bev tr').ops
        = [DbOp.addMessage bev.chat_id (defaultSender bev.from_user) none
            bev.date true none]) := by
  have hbiz : ∀ hb2 : (bcid == "") = false,
      ∀ hn2 : (get_business_connection s bcid).isNone = false,
      bev.business_connection_id = some bcid →
      (handle_business_voice s bev tr')
        = { ops := [DbOp.addMessage bev.chat_id (defaultSender bev.from_user)
              none bev.date true none],
            outputs := [], downloaded := false, transcribed := false,
            tempFileLeft := false, analysisInvoked := false } := by
    intro hb2 hn2 hbc
    have hb' : bcid ≠ "" := ne_of_beq_false hb2
    have hn' : ¬ get_business_connection s bcid = none := by
      rw [← Option.isNone_iff_eq_none]
      simp [hn2]
    simp [handle_business_voice, hbc, hb', hn', hbd]
  refine ⟨?_, ?_, ?_, ?_, ?_, ?_⟩
  · cases ha : is_user_authorized s vev.from_user_id with
    | false => simp [handle_voice, ha]
    | true => simp [handle_voice, ha, hd]
  · cases ha : is_user_authorized s vev.from_user_id with
    | false => simp [handle_voice, ha]
    | true => simp [handle_voice, ha, hd]
  · cases hbc : bev.business_connection_id with
    | none => simp [handle_business_voice, hbc, noEffects]
    | some b =>
        cases hb : b == "" with
        | true =>
            have hb' : b = "" := eq_of_beq hb
            simp [handle_business_voice, hbc, hb', noEffects]
        | false =>
            have hb' : b ≠ "" := ne_of_beq_false hb
            cases hn : (get_business_connection s b).isNone with
            | true =>
                have hn' : get_business_connection s b = none :=
                  Option.isNone_iff_eq_none.mp hn
                simp [handle_business_voice, hbc, hb', hn', noEffects]
            | false =>
                have hn' : ¬ get_business_connection s b = none := by
                  rw [← Option.isNone_iff_eq_none]
                  simp [hn]
                simp [handle_business_voice, hbc, hb', hn', hbd]
  · cases hbc : bev.business_connection_id with
    | none => simp [handle_business_voice, hbc, noEffects]
    | some b =>
        cases hb : b == "" with
        | true =>
            have hb' : b = "" := eq_of_beq hb
            simp [handle_business_voice, hbc, hb', noEffects]
        | false =>
            have hb' : b ≠ "" := ne_of_beq_false hb
            cases hn : (get_business_connection s b).isNone with
            | true =>
                have hn' : get_business_connection s b = none :=
                  Option.isNone_iff_eq_none.mp hn
                simp [handle_business_voice, hbc, hb', hn', noEffects]
            | false =>
                have hn' : ¬ get_business_connection s b = none := by
                  rw [← Option.isNone_iff_eq_none]
                  simp [hn]
                simp [handle_business_voice, hbc, hb', hn', hbd]
  · intro ha
    simp [handle_voice, ha, hd]
  · intro hbc hb2 hn2
    rw [hbiz hb2 hn2 hbc]

/-- Claim C5, witness: with transcription disabled for chats 5 and 9, the
direct and the business voice handlers each store exactly the bare voice
Message. -/
theorem c5_witness :
    (handle_voice dbBizOff voiceEv1 (CallResult.ok "x")).ops
      = [DbOp.addMessage 5 1 none 100 true none] ∧
    (handle_business_voice dbBizOff bizVoiceEv (CallResult.ok "x")).ops
      = [DbOp.addMessage 9 0 none 60 true none] := by
  have h := c5_disabled_short_circuit dbBizOff voiceEv1 bizVoiceEv
    (CallResult.ok "x") (CallResult.ok "x") "biz1" (by decide) (by decide)
  refine ⟨h.2.2.2.2.1 (by decide), ?_⟩
  have h6 := h.2.2.2.2.2 rfl (by decide) (by decide)
  simpa using h6

/-- Claim C6: an analysis request on a chat with zero stored messages is
refused: the fixed-mode callback raises the no-history alert, invokes no
analysis and writes nothing, leaving the FSM untouched; the custom path
(pending-query consumption in the text handler) renders the no-history
notice, invokes no analysis, writes nothing and clears the pending state. -/
theorem c6_no_history_refusal (s : DBState) (atype : String)
    (cid uid target : Int) (fsm : FsmState) (ar ar' : CallResult)
    (tev : TextEvent)
    (hfix : (atype == "custom") = false)
    (hempty : get_chat_messages s cid 300 = [])
    (hempty' : get_chat_messages s target 300 = []) :
    (callback_analyze s fsm atype cid uid ar).1.analysisInvoked = false ∧
    (callback_analyze s fsm atype cid uid ar).1.ops = [] ∧
    (callback_analyze s fsm atype cid uid ar).1.outputs
      = [Out.alert "❌ Нет сообщений для анализа"] ∧
    (callback_analyze s fsm atype cid uid ar).2 = fsm ∧
    (handle_text s (FsmState.waitingCustomQuery target) tev ar').1.analysisInvoked
      = false ∧
    (handle_text s (FsmState.waitingCustomQuery target) tev ar').1.ops = [] ∧
    (handle_text s (FsmState.waitingCustomQuery target) tev ar').1.outputs
      = [Out.sent "❌ Нет сообщений для анализа"] ∧
    (handle_text s (FsmState.waitingCustomQuery target) tev ar').2
      = FsmState.idle := by
  have hf' : atype ≠ "custom" := ne_of_beq_false hfix
  have h1 : (get_chat_messages s cid 300).isEmpty = true := by
    rw [hempty]
    rfl
  have h2 : (get_chat_messages s target 300).isEmpty = true := by
    rw [hempty']
    rfl
  refine ⟨?_, ?_, ?_, ?_, ?_, ?_, ?_, ?_⟩ <;>
    simp [callback_analyze, handle_text, hf', h1, h2]

/-- Claim C6, witness: on the empty store, a summary request and a pending
custom query on chat 5 are both refused with no writes. -/
theorem c6_witness :
    (callback_analyze emptyDB FsmState.idle "summary" 5 1 (CallResult.ok "r")).1.ops
      = [] ∧
    (handle_text emptyDB (FsmState.waitingCustomQuery 5) textEv42
      (CallResult.ok "r")).2 = FsmState.idle := by
  have h := c6_no_history_refusal emptyDB "summary" 5 1 5 FsmState.idle
    (CallResult.ok "r") (CallResult.ok "r") textEv42 (by decide) (by decide)
    (by decide)
  exact ⟨h.2.1, h.2.2.2.2.2.2.2⟩

/-- Claim C8: neither the analyze callback nor the pending-custom-query
branch of the text handler reads the users table: their behaviour is
invariant under replacing the users table entirely, and whenever history is
non-empty they invoke the analysis service and persist an AnalysisResult
row — in particular for a requester whose `is_authorized` flag is false. -/
theorem c8_no_authorization_check (s : DBState) (users' : List UserRow)
    (atype : String) (cid uid target : Int) (fsm : FsmState) (r : String)
    (tev : TextEvent) (ar : CallResult)
    (hfix : (atype == "custom") = false)
    (hne : get_chat_messages s cid 300 ≠ [])
    (hne' : get_chat_messages s target 300 ≠ []) :
    callback_analyze { s with users := users' } fsm atype cid uid ar
      = callback_analyze s fsm atype cid uid ar ∧
    handle_text { s with users := users' } (FsmState.waitingCustomQuery target)
      tev ar
      = handle_text s (FsmState.waitingCustomQuery target) tev ar ∧
    (callback_analyze s fsm atype cid uid (CallResult.ok r)).1.analysisInvoked
      = true ∧
    (callback_analyze s fsm atype cid uid (CallResult.ok r)).1.ops
      = [DbOp.addAnalysisResult cid uid atype r] ∧
    (handle_text s (FsmState.waitingCustomQuery target) tev
      (CallResult.ok r)).1.analysisInvoked = true ∧
    (handle_text s (FsmState.waitingCustomQuery target) tev
      (CallResult.ok r)).1.ops
      = [DbOp.addAnalysisResult target tev.from_user_id "custom" r] := by
  have hf' : atype ≠ "custom" := ne_of_beq_false hfix
  have h1 : (get_chat_messages s cid 300).isEmpty = false := by
    cases hl : get_chat_messages s cid 300 with
    | nil => exact absurd hl hne
    | cons a as => rfl
  have h2 : (get_chat_messages s target 300).isEmpty = false := by
    cases hl : get_chat_messages s target 300 with
    | nil => exact absurd hl hne'
    | cons a as => rfl
  refine ⟨rfl, rfl, ?_, ?_, ?_, ?_⟩ <;>
    simp [callback_analyze, handle_text, hf', h1, h2]

/-- Claim C8, witness: on a store where user 42 is stored unauthorized and
chat 9 has history, the summary callback still persists an AnalysisResult
for user 42. -/
theorem c8_witness :
    (callback_analyze dbBiz FsmState.idle "summary" 9 42 (CallResult.ok "res")).1.ops
      = [DbOp.addAnalysisResult 9 42 "summary" "res"] ∧
    is_user_authorized dbBiz 42 = false := by
  have h := c8_no_authorization_check dbBiz [] "summary" 9 42 9 FsmState.idle
    "res" textEv42 (CallResult.ok "res") (by decide) (by decide) (by decide)
  exact ⟨h.2.2.2.1, by decide⟩

end TgAnalys
